import Mathlib

/-!
Verification of the kalshi-edge-trader decision engine.

Shallow embedding of the statistical decision-and-risk core:
`src/trading/sizing.py`, `src/trading/risk.py`, `src/trading/edge.py`,
`src/models/temperature.py`, `src/models/calibration.py`, with the
configuration constants of `src/config.py` and the orderbook helpers of
`src/data/kalshi.py`.

Prices, balances and temperatures are embedded as exact rationals where
the code only does field arithmetic and comparisons, and as reals where
the code uses the normal CDF or a square root.  The standard normal CDF
(scipy stats.norm) is kept as an explicit function parameter `phi`; the
concrete `stdNormalCdf` below instantiates it with the genuine Gaussian
integral.
-/

namespace KalshiEdge

/-! ## Configuration constants (src/config.py and module-level constants) -/

/-- `MAX_POSITION_PCT_PER_CITY = 0.03` (src/config.py). -/
def MAX_POSITION_PCT_PER_CITY : ℚ := 3 / 100

/-- `MAX_OPEN_POSITIONS = 5` (src/config.py). -/
def MAX_OPEN_POSITIONS : ℤ := 5

/-- `DAILY_STOP_LOSS_PCT = 0.05` (src/config.py). -/
def DAILY_STOP_LOSS_PCT : ℚ := 1 / 20

/-- `MIN_EDGE_THRESHOLD = 0.05` (src/config.py). -/
def MIN_EDGE_THRESHOLD : ℚ := 1 / 20

/-- `KELLY_FRACTION = 0.25` (src/config.py). -/
def KELLY_FRACTION : ℚ := 1 / 4

/-- `KALSHI_FEE_RATE = 0.01` (src/config.py). -/
def KALSHI_FEE_RATE : ℚ := 1 / 100

/-- `MAX_SPREAD_TO_TRADE = 0.12` (src/trading/edge.py). -/
def MAX_SPREAD_TO_TRADE : ℚ := 12 / 100

/-- `MIN_VOLUME_TO_TRADE = 5` (src/trading/edge.py). -/
def MIN_VOLUME_TO_TRADE : ℤ := 5

/-- `MIN_ASK_TO_TRADE = 0.05` (src/trading/edge.py). -/
def MIN_ASK_TO_TRADE : ℚ := 1 / 20

/-- `MAX_ASK_TO_TRADE = 0.95` (src/trading/edge.py). -/
def MAX_ASK_TO_TRADE : ℚ := 19 / 20

/-- `BRACKET_MIN_EDGE = 0.10` (src/trading/edge.py). -/
def BRACKET_MIN_EDGE : ℚ := 1 / 10

/-- `MIN_RECORDS_FOR_CALIBRATION = 7` (src/models/calibration.py). -/
def MIN_RECORDS_FOR_CALIBRATION : ℕ := 7

/-! ## Position sizing (src/trading/sizing.py) -/

/-- `kelly_fraction(model_prob, ask_price)` (src/trading/sizing.py lines 23-52):
net payout per dollar is `1 - ask_price`; returns 0 when that or the ask is
nonpositive; otherwise quarter-Kelly of `(p - q)/(1 - q)` floored at 0 and
capped at `MAX_POSITION_PCT_PER_CITY`. -/
def kelly_fraction (model_prob ask_price : ℚ) : ℚ :=
  let net_payout_per_dollar := 1 - ask_price
  if net_payout_per_dollar ≤ 0 ∨ ask_price ≤ 0 then 0
  else
    let full_kelly := max ((model_prob - ask_price) / net_payout_per_dollar) 0
    let fractional := KELLY_FRACTION * full_kelly
    min fractional MAX_POSITION_PCT_PER_CITY

/-- The dollar risk computed inside `compute_contract_count`
(src/trading/sizing.py lines 77-79): `kelly_frac * balance`, then
`min` with the dollar cap, then `max` with 0. -/
def clamped_dollar_risk (kelly_frac current_balance max_dollar_risk : ℚ) : ℚ :=
  max (min (kelly_frac * current_balance) max_dollar_risk) 0

/-- `compute_contract_count(kelly_frac, current_balance, ask_price,
max_dollar_risk)` (src/trading/sizing.py lines 55-90): early `(0, 0.0)` when
the ask or the Kelly fraction is nonpositive; otherwise
`count = floor(dollar_risk / ask_price)` and `actual_risk = count * ask_price`. -/
def compute_contract_count (kelly_frac current_balance ask_price max_dollar_risk : ℚ) :
    ℤ × ℚ :=
  if ask_price ≤ 0 ∨ kelly_frac ≤ 0 then (0, 0)
  else
    let dollar_risk := clamped_dollar_risk kelly_frac current_balance max_dollar_risk
    let count := ⌊dollar_risk / ask_price⌋
    (count, (count : ℚ) * ask_price)

/-! ## Risk manager (src/trading/risk.py)

The `RiskManager` object's mutable attributes become a state record; each
method becomes a function from the state (and the method's arguments) to its
return value and the successor state.  `datetime.date.today()` is an ambient
clock value, passed to the constructor and to `reset_daily` as an integer
day token. -/

structure RiskState where
  day_start_balance : ℚ
  current_balance : ℚ
  kill_switch_active : Bool
  today : ℤ
  open_position_count : ℤ
  city_exposure : String → ℚ
  open_tickers : List String

/-- `RiskManager.__init__(starting_balance)` (src/trading/risk.py lines 22-29).
The empty exposure dict is the everywhere-zero map (`dict.get(city, 0.0)`). -/
def mkRiskManager (starting_balance : ℚ) (clock_today : ℤ) : RiskState :=
  { day_start_balance := starting_balance
    current_balance := starting_balance
    kill_switch_active := false
    today := clock_today
    open_position_count := 0
    city_exposure := fun _ => 0
    open_tickers := [] }

/-- `RiskManager.reset_daily(current_balance)` (src/trading/risk.py lines 35-47). -/
def reset_daily (_prev : RiskState) (clock_today : ℤ) (current_balance : ℚ) : RiskState :=
  { day_start_balance := current_balance
    current_balance := current_balance
    kill_switch_active := false
    today := clock_today
    open_position_count := 0
    city_exposure := fun _ => 0
    open_tickers := [] }

/-- `RiskManager.update_balance(balance)` (src/trading/risk.py lines 49-51). -/
def update_balance (s : RiskState) (balance : ℚ) : RiskState :=
  { s with current_balance := balance }

/-- `RiskManager.check_kill_switch(current_balance)` (src/trading/risk.py
lines 57-74): early true when already active; otherwise activates when
`current_balance < day_start_balance * (1 - DAILY_STOP_LOSS_PCT)`; returns
the (possibly newly set) flag. -/
def check_kill_switch (s : RiskState) (current_balance : ℚ) : Bool × RiskState :=
  if s.kill_switch_active then (true, s)
  else
    let loss_threshold := s.day_start_balance * (1 - DAILY_STOP_LOSS_PCT)
    if current_balance < loss_threshold then
      (true, { s with kill_switch_active := true })
    else
      (false, s)

/-- `RiskManager.can_trade(city, dollar_risk, current_balance, market_ticker)`
(src/trading/risk.py lines 80-117).  Each early return carries the reason
string of the source (numeric interpolation elided); the state is returned
alongside to make the method's absence of mutation explicit. -/
def can_trade (s : RiskState) (city : String) (dollar_risk current_balance : ℚ)
    (market_ticker : String) : (Bool × String) × RiskState :=
  if s.kill_switch_active then
    ((false, "Kill switch active - no trading today"), s)
  else if s.open_position_count ≥ MAX_OPEN_POSITIONS then
    ((false, "Max open positions reached"), s)
  else if market_ticker ≠ "" ∧ market_ticker ∈ s.open_tickers then
    ((false, "Already have an open position in this market"), s)
  else
    let city_budget := MAX_POSITION_PCT_PER_CITY * current_balance
    let city_used := s.city_exposure city
    if city_used + dollar_risk > city_budget then
      ((false, "City exposure would exceed budget"), s)
    else
      let absolute_max := MAX_POSITION_PCT_PER_CITY * current_balance
      if dollar_risk > absolute_max then
        ((false, "Single trade risk exceeds max"), s)
      else if dollar_risk ≤ 0 then
        ((false, "Computed dollar risk is zero - no trade to make"), s)
      else
        ((true, "OK"), s)

/-- Python `set.add`: insert when absent. -/
def addTicker (l : List String) (t : String) : List String :=
  if t ∈ l then l else t :: l

/-- `RiskManager.register_trade(city, dollar_risk, market_ticker)`
(src/trading/risk.py lines 123-132). -/
def register_trade (s : RiskState) (city : String) (dollar_risk : ℚ)
    (market_ticker : String) : RiskState :=
  { s with
    open_position_count := s.open_position_count + 1
    city_exposure := fun c =>
      if c = city then s.city_exposure c + dollar_risk else s.city_exposure c
    open_tickers :=
      if market_ticker ≠ "" then addTicker s.open_tickers market_ticker
      else s.open_tickers }

/-- `RiskManager.close_position(city, dollar_risk, market_ticker)`
(src/trading/risk.py lines 134-140): the count is floored at 0 and the city's
exposure is floored at 0; `set.discard` is `List.erase`. -/
def close_position (s : RiskState) (city : String) (dollar_risk : ℚ)
    (market_ticker : String) : RiskState :=
  { s with
    open_position_count := max 0 (s.open_position_count - 1)
    city_exposure := fun c =>
      if c = city then max 0 (s.city_exposure c - dollar_risk)
      else s.city_exposure c
    open_tickers :=
      if market_ticker ≠ "" then s.open_tickers.erase market_ticker
      else s.open_tickers }

/-- One non-reset call into the risk manager, for reasoning about call
sequences between two daily resets. -/
inductive RiskCall where
  | checkKill (balance : ℚ)
  | updateBalance (balance : ℚ)
  | register (city : String) (dollar_risk : ℚ) (ticker : String)
  | close (city : String) (dollar_risk : ℚ) (ticker : String)
  | query (city : String) (dollar_risk balance : ℚ) (ticker : String)

/-- State effect of one non-reset call. -/
def applyCall (s : RiskState) : RiskCall → RiskState
  | RiskCall.checkKill b => (check_kill_switch s b).2
  | RiskCall.updateBalance b => update_balance s b
  | RiskCall.register c r t => register_trade s c r t
  | RiskCall.close c r t => close_position s c r t
  | RiskCall.query c r b t => (can_trade s c r b t).2

/-- State effect of a sequence of non-reset calls, oldest first. -/
def applyCalls (cs : List RiskCall) (s : RiskState) : RiskState :=
  cs.foldl applyCall s

/-- The register amounts in a call sequence are all nonnegative. -/
def registersNonneg (cs : List RiskCall) : Prop :=
  ∀ c ∈ cs, ∀ city r t, c = RiskCall.register city r t → 0 ≤ r

/-- Nonnegative open-position count and city exposures. -/
def exposuresNonneg (s : RiskState) : Prop :=
  0 ≤ s.open_position_count ∧ ∀ city, 0 ≤ s.city_exposure city

/-! ## Market data (src/data/kalshi.py)

`KalshiMarket` and `KalshiOrderbook` carry float prices and temperatures;
the numeric type is a parameter so the same shape serves the real-valued
edge evaluator and the rational-valued bracket detector. -/

structure KalshiMarket (α : Type) where
  ticker : String
  event_ticker : String
  yes_ask : α
  yes_bid : α
  yes_sub_title : String
  temp_low : Option α
  temp_high : Option α
  is_open_low : Bool
  is_open_high : Bool
  status : String
  volume : ℤ

/-- Orderbook levels; only the price of each level matters to the code under
verification, so a level is embedded as its price. -/
structure KalshiOrderbook (α : Type) where
  ticker : String
  yes_bids : List α
  yes_asks : List α

/-- `KalshiOrderbook.best_ask` (src/data/kalshi.py lines 63-66): `min` of the
ask prices, `None` when there are none. -/
def best_ask [LinearOrder α] (ob : KalshiOrderbook α) : Option α :=
  match ob.yes_asks with
  | [] => none
  | p :: ps => some (ps.foldl min p)

/-- `KalshiOrderbook.best_bid` (src/data/kalshi.py lines 68-71): `max` of the
bid prices, `None` when there are none. -/
def best_bid [LinearOrder α] (ob : KalshiOrderbook α) : Option α :=
  match ob.yes_bids with
  | [] => none
  | p :: ps => some (ps.foldl max p)

/-- `KalshiOrderbook.spread` (src/data/kalshi.py lines 73-78):
`best_ask - best_bid` when both exist, else `None`. -/
def orderbook_spread [LinearOrder α] [Sub α] (ob : KalshiOrderbook α) : Option α :=
  match best_ask ob, best_bid ob with
  | some a, some b => some (a - b)
  | _, _ => none

/-- Python `x or d` on an optional float `x` (src/trading/edge.py line 100):
yields `d` when `x` is `None` and also when `x` is the falsy float `0.0`. -/
def pyOrFloat [Zero α] [DecidableEq α] (x : Option α) (d : α) : α :=
  match x with
  | none => d
  | some v => if v = 0 then d else v

/-! ## Trade opportunities and the bracket detector (src/trading/edge.py) -/

structure TradeOpportunity (α : Type) where
  market : KalshiMarket α
  orderbook : KalshiOrderbook α
  model_prob : α
  ask_price : α
  bid_price : α
  spread : α
  raw_edge : α
  fee_cost : α
  net_edge : α
  has_edge : Bool
  ev_per_dollar : α
  city : String

structure BracketOpportunity (α : Type) where
  legs : List (TradeOpportunity α)
  combined_model_prob : α
  total_ask : α
  profit_if_hit : α
  total_net_edge : α
  expected_value : α
  has_edge : Bool
  city : String

/-- Stable insertion into a list sorted by the strict key order `lt`:
an element moves past exactly the elements strictly greater under the key,
matching the stability of Python's `list.sort`. -/
def insertByKey (lt : α → α → Bool) (x : α) : List α → List α
  | [] => [x]
  | y :: ys => if lt x y then x :: y :: ys else y :: insertByKey lt x ys

/-- Stable sort by the strict key order `lt` (insertion sort). -/
def sortByKey (lt : α → α → Bool) : List α → List α
  | [] => []
  | x :: xs => insertByKey lt x (sortByKey lt xs)

/-- The body of the candidate loop of `find_bracket_opportunities`
(src/trading/edge.py lines 265-315) for one adjacent pair `(lo, hi)` of the
sorted bounded list: degree-adjacency, mean-straddling, combined-edge and
positive-EV gates, then the candidate record.  The temperature bounds are
`some` for every element of the bounded list; `getD 0` extracts them. -/
def bracketCandidate (dist_mu : ℚ) (city : String)
    (p : TradeOpportunity ℚ × TradeOpportunity ℚ) : Option (BracketOpportunity ℚ) :=
  let lo := p.1
  let hi := p.2
  if hi.market.temp_low.getD 0 ≠ lo.market.temp_high.getD 0 + 1 then none
  else
    let lo_centre := (lo.market.temp_low.getD 0 + lo.market.temp_high.getD 0) / 2
    let hi_centre := (hi.market.temp_low.getD 0 + hi.market.temp_high.getD 0) / 2
    if ¬(lo_centre ≤ dist_mu ∧ dist_mu ≤ hi_centre) then none
    else
      let combined_prob := lo.model_prob + hi.model_prob
      let total_ask := lo.ask_price + hi.ask_price
      let total_net_edge := lo.net_edge + hi.net_edge
      let ev := combined_prob - total_ask
      if total_net_edge < BRACKET_MIN_EDGE then none
      else if ev ≤ 0 then none
      else
        some { legs := [lo, hi]
               combined_model_prob := combined_prob
               total_ask := total_ask
               profit_if_hit := 1 - total_ask
               total_net_edge := total_net_edge
               expected_value := ev
               has_edge := true
               city := city }

/-- `find_bracket_opportunities(dist, opportunities, city)`
(src/trading/edge.py lines 229-331): keep fully bounded bins whose own
net edge clears `MIN_EDGE_THRESHOLD`; bail out below two; sort ascending by
`temp_low`; evaluate every adjacent index pair; sort the surviving candidates
by expected value descending and return them all. -/
def find_bracket_opportunities (dist_mu : ℚ)
    (opportunities : List (TradeOpportunity ℚ)) (city : String) :
    List (BracketOpportunity ℚ) :=
  let bounded := opportunities.filter (fun o =>
    !o.market.is_open_low && !o.market.is_open_high &&
    o.market.temp_low.isSome && o.market.temp_high.isSome &&
    decide (MIN_EDGE_THRESHOLD ≤ o.net_edge))
  if bounded.length < 2 then []
  else
    let sorted := sortByKey
      (fun a b => decide (a.market.temp_low.getD 0 < b.market.temp_low.getD 0)) bounded
    let results := (sorted.zip sorted.tail).filterMap (bracketCandidate dist_mu city)
    sortByKey (fun a b => decide (b.expected_value < a.expected_value)) results

/-! ## Calibration updater (src/models/calibration.py)

A calibration record `{nbm_mu, nbm_sigma, actual_high}` is a real triple in
that field order.  `np.mean` is sum over length and `np.std` is the
population standard deviation. -/

/-- `np.mean` on a list of reals. -/
noncomputable def listMean (l : List ℝ) : ℝ := l.sum / l.length

/-- `np.std` on a list of reals: square root of the mean squared deviation
from the mean (`ddof = 0`). -/
noncomputable def listStd (l : List ℝ) : ℝ :=
  Real.sqrt (listMean (l.map (fun x => (x - listMean l) ^ 2)))

/-- `compute_bias_correction(records)` (src/models/calibration.py lines
23-63): neutral `(0, 1)` below `MIN_RECORDS_FOR_CALIBRATION` records;
otherwise bias is the mean forecast error and, when the mean reported sigma
is positive, the scale is the error standard deviation over that mean,
clamped into `[0.5, 2.5]` (else the scale stays 1). -/
noncomputable def compute_bias_correction (records : List (ℝ × ℝ × ℝ)) : ℝ × ℝ :=
  if records.length < MIN_RECORDS_FOR_CALIBRATION then (0, 1)
  else
    let errors := records.map (fun r => r.2.2 - r.1)
    let bias := listMean errors
    let sigmas := records.map (fun r => r.2.1)
    let scale :=
      if 0 < listMean sigmas then
        max (1 / 2) (min (listStd errors / listMean sigmas) (5 / 2))
      else 1
    (bias, scale)

/-! ## Bin probability model (src/models/temperature.py)

`scipy.stats.norm(loc=mu, scale=sigma).cdf(x)` is `phi ((x - mu) / sigma)`
for the standard normal CDF `phi`, kept as an explicit function parameter.
`stdNormalCdf` below is the genuine standard normal CDF as a Gaussian
integral. -/

/-- The standard normal density. -/
noncomputable def stdNormalPdf (t : ℝ) : ℝ :=
  Real.exp (-(t ^ 2) / 2) / Real.sqrt (2 * Real.pi)

/-- The standard normal CDF: integral of the density over `(-∞, x]`. -/
noncomputable def stdNormalCdf (x : ℝ) : ℝ :=
  ∫ t in Set.Iic x, stdNormalPdf t

/-- `bin_probability(mu, sigma, temp_low, temp_high, is_open_low,
is_open_high)` (src/models/temperature.py lines 69-95), with the normal CDF
as the parameter `phi`.  The branch order mirrors the source's `if` chain:
open-low with an upper bound, open-high with a lower bound, both bounds
present, else 0. -/
noncomputable def bin_probability (phi : ℝ → ℝ) (mu sigma : ℝ)
    (temp_low temp_high : Option ℝ) (iol ioh : Bool) : ℝ :=
  match iol, temp_high with
  | true, some h => phi ((h - mu) / sigma)
  | _, _ =>
    match ioh, temp_low with
    | true, some l => 1 - phi ((l - mu) / sigma)
    | _, _ =>
      match temp_low, temp_high with
      | some l, some h => phi ((h - mu) / sigma) - phi ((l - mu) / sigma)
      | _, _ => 0

/-! ## Edge evaluator (src/trading/edge.py) -/

/-- `compute_edge(model_prob, ask_price)` (src/trading/edge.py lines 41-65):
`(raw_edge, fee_cost, net_edge)` with the fee expressed as a fraction of the
premium, `KALSHI_FEE_RATE / ask_price` (1.0 when the ask is nonpositive). -/
noncomputable def compute_edge (model_prob ask_price : ℝ) : ℝ × ℝ × ℝ :=
  let raw_edge := model_prob - ask_price
  let fee_cost := if 0 < ask_price then (KALSHI_FEE_RATE : ℝ) / ask_price else 1
  (raw_edge, fee_cost, raw_edge - fee_cost)

open Classical in
/-- `evaluate_market(market, dist, client, city)` (src/trading/edge.py lines
68-148).  The orderbook the client would fetch is the argument `ob`
(`none` models a failed fetch).  Gate order follows the source: missing or
extreme ask, tradeable ask range, spread (through Python's falsy `or`,
`pyOrFloat`), volume, parseable shape, zero model probability; then the
`TradeOpportunity` is assembled from `compute_edge`. -/
noncomputable def evaluate_market (phi : ℝ → ℝ) (market : KalshiMarket ℝ)
    (dist_mu dist_sigma : ℝ) (ob : Option (KalshiOrderbook ℝ)) (city : String) :
    Option (TradeOpportunity ℝ) :=
  match ob with
  | none => none
  | some o =>
    match best_ask o with
    | none => none
    | some ask =>
      if ask ≤ 1 / 100 ∨ 99 / 100 ≤ ask then none
      else if ask < (MIN_ASK_TO_TRADE : ℝ) then none
      else if (MAX_ASK_TO_TRADE : ℝ) < ask then none
      else
        let bid := best_bid o
        let spread := pyOrFloat (orderbook_spread o) 1
        if (MAX_SPREAD_TO_TRADE : ℝ) < spread then none
        else if market.volume < MIN_VOLUME_TO_TRADE then none
        else if market.temp_low = none ∧ market.temp_high = none ∧
            market.is_open_low = false ∧ market.is_open_high = false then none
        else
          let model_prob := bin_probability phi dist_mu dist_sigma
            market.temp_low market.temp_high market.is_open_low market.is_open_high
          if model_prob ≤ 0 then none
          else
            let e := compute_edge model_prob ask
            let raw_edge := e.1
            let fee_cost := e.2.1
            let net_edge := e.2.2
            let has_edge := decide ((MIN_EDGE_THRESHOLD : ℝ) ≤ net_edge)
            let ev_per_dollar := if 0 < ask then net_edge / ask else 0
            some { market := market
                   orderbook := o
                   model_prob := model_prob
                   ask_price := ask
                   bid_price := bid.getD 0
                   spread := spread
                   raw_edge := raw_edge
                   fee_cost := fee_cost
                   net_edge := net_edge
                   has_edge := has_edge
                   ev_per_dollar := ev_per_dollar
                   city := city }

/-! ## Concrete inputs used by the theorems below -/

/-- A fully bounded single-bin opportunity with consistent edge fields:
`net = p - ask - FEE/ask`. -/
def mkBoundedOpp (t : String) (lo hi p ask net : ℚ) : TradeOpportunity ℚ :=
  { market :=
      { ticker := t
        event_ticker := "EV"
        yes_ask := ask
        yes_bid := ask
        yes_sub_title := ""
        temp_low := some lo
        temp_high := some hi
        is_open_low := false
        is_open_high := false
        status := "open"
        volume := 10 }
    orderbook := { ticker := t, yes_bids := [ask], yes_asks := [ask] }
    model_prob := p
    ask_price := ask
    bid_price := ask
    spread := 0
    raw_edge := p - ask
    fee_cost := KALSHI_FEE_RATE / ask
    net_edge := net
    has_edge := true
    ev_per_dollar := net / ask
    city := "LA" }

/-- Three consecutive bounded bins `[60,61]`, `[62,63]`, `[64,65]`, each with
model probability 0.30, ask 0.20 and net edge 0.05 (which is exactly
`raw - fee = 0.10 - 0.05`).  With the distribution mean at 62.5 both adjacent
pairs straddle the mean and pass every bracket gate. -/
def c2Opps : List (TradeOpportunity ℚ) :=
  [mkBoundedOpp "B1" 60 61 (3 / 10) (1 / 5) (1 / 20),
   mkBoundedOpp "B2" 62 63 (3 / 10) (1 / 5) (1 / 20),
   mkBoundedOpp "B3" 64 65 (3 / 10) (1 / 5) (1 / 20)]

/-- A bounded market whose quotes have ask = bid = 0.50: the true spread is
exactly 0. -/
noncomputable def c4Market : KalshiMarket ℝ :=
  { ticker := "KXHIGHLAX-B6061"
    event_ticker := "KXHIGHLAX"
    yes_ask := 1 / 2
    yes_bid := 1 / 2
    yes_sub_title := "60 to 61"
    temp_low := some 60
    temp_high := some 61
    is_open_low := false
    is_open_high := false
    status := "open"
    volume := 10 }

/-- Orderbook for `c4Market`: one ask level and one bid level, both at 0.50. -/
noncomputable def c4Ob : KalshiOrderbook ℝ :=
  { ticker := "KXHIGHLAX-B6061", yes_bids := [1 / 2], yes_asks := [1 / 2] }

/-- A bounded market `[60, 61]` with healthy volume, for the accepted-path
witness. -/
noncomputable def c8Market : KalshiMarket ℝ :=
  { ticker := "KXHIGHLAX-B6061"
    event_ticker := "KXHIGHLAX"
    yes_ask := 1 / 2
    yes_bid := 9 / 20
    yes_sub_title := "60 to 61"
    temp_low := some 60
    temp_high := some 61
    is_open_low := false
    is_open_high := false
    status := "open"
    volume := 10 }

/-- Orderbook for `c8Market`: best ask 0.50, best bid 0.45 (spread 0.05). -/
noncomputable def c8Ob : KalshiOrderbook ℝ :=
  { ticker := "KXHIGHLAX-B6061", yes_bids := [9 / 20], yes_asks := [1 / 2] }

/-- The opportunity `evaluate_market` produces on `c8Market`, `c8Ob` with the
identity in place of the CDF and distribution mean 60.5, sigma 1. -/
noncomputable def c8Opp : TradeOpportunity ℝ :=
  { market := c8Market
    orderbook := c8Ob
    model_prob := 1
    ask_price := 1 / 2
    bid_price := 9 / 20
    spread := 1 / 20
    raw_edge := 1 / 2
    fee_cost := 1 / 50
    net_edge := 12 / 25
    has_edge := true
    ev_per_dollar := 24 / 25
    city := "LA" }

/-- Seven calibration records whose reported sigma is -1: the code's
`mean(sigmas) > 0` guard fails and the scale silently stays 1. -/
noncomputable def calRecordsDegenerate : List (ℝ × ℝ × ℝ) :=
  List.replicate 7 (0, -1, 0)

/-- Seven calibration records `(nbm_mu 0, nbm_sigma 1, actual 2)`: enough
records, positive mean sigma, error constantly 2. -/
noncomputable def calRecordsGood : List (ℝ × ℝ × ℝ) :=
  List.replicate 7 (0, 1, 2)

/-! ## Helper lemmas: risk manager -/

/-- `can_trade` hands back the state it was given, in every branch. -/
theorem can_trade_state_eq (s : RiskState) (city : String) (dollar_risk current_balance : ℚ)
    (market_ticker : String) :
    (can_trade s city dollar_risk current_balance market_ticker).2 = s := by
  unfold can_trade
  dsimp only
  split_ifs <;> rfl

/-- `check_kill_switch` on an already-active state returns true and the same
state. -/
theorem check_kill_switch_of_active (s : RiskState) (b : ℚ)
    (h : s.kill_switch_active = true) : check_kill_switch s b = (true, s) := by
  unfold check_kill_switch
  rw [if_pos h]

/-- When `check_kill_switch` answers true, the state it leaves behind has the
flag set. -/
theorem check_kill_switch_true_state (s : RiskState) (b : ℚ)
    (h : (check_kill_switch s b).1 = true) :
    (check_kill_switch s b).2.kill_switch_active = true := by
  by_cases h1 : s.kill_switch_active = true
  · rw [check_kill_switch_of_active s b h1]
    exact h1
  · unfold check_kill_switch at h ⊢
    rw [if_neg h1] at h ⊢
    dsimp only at h ⊢
    by_cases h2 : b < s.day_start_balance * (1 - DAILY_STOP_LOSS_PCT)
    · rw [if_pos h2]
    · rw [if_neg h2] at h
      simp at h

/-- No non-reset call clears an active kill switch. -/
theorem applyCall_preserves_kill (s : RiskState) (c : RiskCall)
    (h : s.kill_switch_active = true) : (applyCall s c).kill_switch_active = true := by
  cases c with
  | checkKill b => rw [applyCall, check_kill_switch_of_active s b h]; exact h
  | updateBalance b => exact h
  | register city r t => exact h
  | close city r t => exact h
  | query city r b t => rw [applyCall, can_trade_state_eq]; exact h

/-- No sequence of non-reset calls clears an active kill switch. -/
theorem applyCalls_preserves_kill (cs : List RiskCall) (s : RiskState)
    (h : s.kill_switch_active = true) : (applyCalls cs s).kill_switch_active = true := by
  induction cs generalizing s with
  | nil => exact h
  | cons c cs ih => exact ih (applyCall s c) (applyCall_preserves_kill s c h)

/-- One non-reset call keeps the count and every exposure nonnegative, as
long as a `register` call carries a nonnegative dollar risk. -/
theorem applyCall_preserves_nonneg (s : RiskState) (c : RiskCall)
    (hs : exposuresNonneg s)
    (hr : ∀ city r t, c = RiskCall.register city r t → 0 ≤ r) :
    exposuresNonneg (applyCall s c) := by
  unfold exposuresNonneg at hs ⊢
  obtain ⟨hcount, hexp⟩ := hs
  cases c with
  | checkKill b =>
    show 0 ≤ (check_kill_switch s b).2.open_position_count ∧
      ∀ city, 0 ≤ (check_kill_switch s b).2.city_exposure city
    unfold check_kill_switch
    dsimp only
    split_ifs <;> exact ⟨hcount, hexp⟩
  | updateBalance b => exact ⟨hcount, hexp⟩
  | register city r t =>
    have hr0 : 0 ≤ r := hr city r t rfl
    constructor
    · show 0 ≤ s.open_position_count + 1
      linarith
    · intro c2
      show 0 ≤ if c2 = city then s.city_exposure c2 + r else s.city_exposure c2
      split_ifs
      · exact add_nonneg (hexp c2) hr0
      · exact hexp c2
  | close city r t =>
    constructor
    · show 0 ≤ max 0 (s.open_position_count - 1)
      exact le_max_left 0 _
    · intro c2
      show 0 ≤ if c2 = city then max 0 (s.city_exposure c2 - r) else s.city_exposure c2
      split_ifs
      · exact le_max_left 0 _
      · exact hexp c2
  | query city r b t =>
    rw [applyCall, can_trade_state_eq]
    exact ⟨hcount, hexp⟩

/-! ## Claim theorems: risk manager -/

/-- C5: once `check_kill_switch` returns true, every later
`check_kill_switch` call returns true whatever balance it is handed,
across any sequence of non-reset risk-manager calls; and `reset_daily`
always leaves the kill switch cleared. -/
theorem kill_switch_sticky (s : RiskState) (b : ℚ)
    (h : (check_kill_switch s b).1 = true) :
    (∀ (cs : List RiskCall) (b2 : ℚ),
      (check_kill_switch (applyCalls cs (check_kill_switch s b).2) b2).1 = true) ∧
    (∀ (s2 : RiskState) (d : ℤ) (b3 : ℚ),
      (reset_daily s2 d b3).kill_switch_active = false) := by
  constructor
  · intro cs b2
    have h1 : (check_kill_switch s b).2.kill_switch_active = true :=
      check_kill_switch_true_state s b h
    have h2 : (applyCalls cs (check_kill_switch s b).2).kill_switch_active = true :=
      applyCalls_preserves_kill cs _ h1
    rw [check_kill_switch_of_active _ b2 h2]
  · intro s2 d b3
    rfl

/-- Witness for C5: a 1000-dollar day with the balance at 900 (below the 950
stop-loss threshold) trips the switch, and a later call at balance 99999
still reports it active after further calls. -/
theorem kill_switch_sticky_witness :
    (check_kill_switch (mkRiskManager 1000 0) 900).1 = true ∧
    (check_kill_switch
      (applyCalls [RiskCall.updateBalance 99999, RiskCall.checkKill 99999]
        (check_kill_switch (mkRiskManager 1000 0) 900).2) 99999).1 = true ∧
    (reset_daily (check_kill_switch (mkRiskManager 1000 0) 900).2 1
      99999).kill_switch_active = false := by
  have h : (check_kill_switch (mkRiskManager 1000 0) 900).1 = true := by
    norm_num [check_kill_switch, mkRiskManager, DAILY_STOP_LOSS_PCT]
  have hmain := kill_switch_sticky (mkRiskManager 1000 0) 900 h
  exact ⟨h, hmain.1 [RiskCall.updateBalance 99999, RiskCall.checkKill 99999] 99999,
    hmain.2 _ 1 99999⟩

/-- C9 counterexample: from a fresh risk state, `register_trade` with a
negative dollar risk followed by a `close_position` on a different city
leaves city A's exposure negative after that `close_position`. -/
theorem close_position_negative_exposure_cex :
    (close_position (register_trade (mkRiskManager 1000 0) "A" (-5) "T1")
      "B" 1 "T2").city_exposure "A" < 0 := by
  norm_num [close_position, register_trade, mkRiskManager]
  rw [if_neg (by decide : ¬("A" : String) = "B")]
  norm_num

/-- C9 as amended: when the starting state has a nonnegative count and
exposures and every `register_trade` in the sequence carries a nonnegative
dollar risk, the open-position count and every city's exposure stay
nonnegative after the whole sequence — in particular after each
`close_position`, however many more closes than registers there are. -/
theorem risk_exposures_nonneg_amended (cs : List RiskCall) (s : RiskState)
    (hs : exposuresNonneg s) (hcs : registersNonneg cs) :
    exposuresNonneg (applyCalls cs s) := by
  induction cs generalizing s with
  | nil => exact hs
  | cons c cs ih =>
    have hstep : exposuresNonneg (applyCall s c) :=
      applyCall_preserves_nonneg s c hs
        (fun city r t hc => hcs c (List.mem_cons_self c cs) city r t hc)
    exact ih (applyCall s c) hstep
      (fun c2 hc2 => hcs c2 (List.mem_cons_of_mem c hc2))

/-- Witness for C9: three closes against one register (a net over-close)
leave the count and city A's exposure at 0, not below. -/
theorem risk_exposures_nonneg_amended_witness :
    exposuresNonneg (mkRiskManager 1000 0) ∧
    registersNonneg [RiskCall.register "A" 5 "T1", RiskCall.close "A" 10 "T1",
      RiskCall.close "A" 3 "T2", RiskCall.close "A" 3 "T3"] ∧
    exposuresNonneg (applyCalls [RiskCall.register "A" 5 "T1",
      RiskCall.close "A" 10 "T1", RiskCall.close "A" 3 "T2",
      RiskCall.close "A" 3 "T3"] (mkRiskManager 1000 0)) := by
  have hs : exposuresNonneg (mkRiskManager 1000 0) :=
    ⟨by norm_num [mkRiskManager], fun city => by simp [mkRiskManager]⟩
  have hcs : registersNonneg [RiskCall.register "A" 5 "T1",
      RiskCall.close "A" 10 "T1", RiskCall.close "A" 3 "T2",
      RiskCall.close "A" 3 "T3"] := by
    intro c hc city r t hcr
    subst hcr
    simp at hc
    obtain ⟨h1, h2, h3⟩ := hc
    subst h2
    norm_num
  exact ⟨hs, hcs, risk_exposures_nonneg_amended _ _ hs hcs⟩

/-- C10: `can_trade` mutates nothing: the state after the call equals the
state before it, whatever the arguments and whether it allows or refuses. -/
theorem can_trade_frame (s : RiskState) (city : String)
    (dollar_risk current_balance : ℚ) (market_ticker : String) :
    (can_trade s city dollar_risk current_balance market_ticker).2 = s :=
  can_trade_state_eq s city dollar_risk current_balance market_ticker

/-! ## Claim theorems: position sizing -/

/-- C3 counterexample: with the ask fixed at 0.50 and both probabilities
above the ask, raising the model probability from 0.90 to 0.95 does not
raise the Kelly fraction - the `MAX_POSITION_PCT_PER_CITY` cap has bound,
so the function is not strictly increasing once the probability exceeds
the ask. -/
theorem kelly_fraction_not_strict_cex :
    (1 / 2 : ℚ) < 9 / 10 ∧ (9 / 10 : ℚ) < 19 / 20 ∧
    kelly_fraction (9 / 10) (1 / 2) = kelly_fraction (19 / 20) (1 / 2) := by
  refine ⟨by norm_num, by norm_num, ?_⟩
  norm_num [kelly_fraction, KELLY_FRACTION, MAX_POSITION_PCT_PER_CITY]

/-- C3 as amended: `kelly_fraction` returns 0 whenever the model probability
is at most the ask (ask positive); and for fixed ask in (0, 1) it is
strictly increasing in the model probability above the ask for as long as
the quarter-Kelly value stays below the `MAX_POSITION_PCT_PER_CITY` cap
(beyond that it is constant at the cap). -/
theorem kelly_fraction_amended :
    (∀ p a : ℚ, 0 < a → p ≤ a → kelly_fraction p a = 0) ∧
    (∀ a p1 p2 : ℚ, 0 < a → a < 1 → a < p1 → p1 < p2 →
      KELLY_FRACTION * ((p1 - a) / (1 - a)) < MAX_POSITION_PCT_PER_CITY →
      kelly_fraction p1 a < kelly_fraction p2 a) := by
  constructor
  · intro p a ha hpa
    unfold kelly_fraction
    dsimp only
    by_cases h1 : 1 - a ≤ 0 ∨ a ≤ 0
    · rw [if_pos h1]
    · rw [if_neg h1]
      push_neg at h1
      have hfull : (p - a) / (1 - a) ≤ 0 :=
        div_nonpos_iff.mpr (Or.inr ⟨by linarith, by linarith⟩)
      rw [max_eq_right hfull, mul_zero]
      rw [min_eq_left]
      norm_num [MAX_POSITION_PCT_PER_CITY]
  · intro a p1 p2 ha ha1 hap1 hp12 hcap
    have hden : 0 < 1 - a := by linarith
    have hcond : ¬(1 - a ≤ 0 ∨ a ≤ 0) := by push_neg; exact ⟨by linarith, ha⟩
    unfold kelly_fraction
    dsimp only
    rw [if_neg hcond, if_neg hcond]
    have hf1 : 0 ≤ (p1 - a) / (1 - a) := div_nonneg (by linarith) hden.le
    have hf2 : 0 ≤ (p2 - a) / (1 - a) := div_nonneg (by linarith) hden.le
    rw [max_eq_left hf1, max_eq_left hf2]
    have hlt : KELLY_FRACTION * ((p1 - a) / (1 - a)) <
        KELLY_FRACTION * ((p2 - a) / (1 - a)) := by
      have hdiv : (p1 - a) / (1 - a) < (p2 - a) / (1 - a) :=
        (div_lt_div_iff_of_pos_right hden).mpr (by linarith)
      exact mul_lt_mul_of_pos_left hdiv (by norm_num [KELLY_FRACTION])
    rw [min_eq_left hcap.le]
    exact lt_min hlt hcap

/-- Witness for C3: at ask 0.50, probability 0.30 yields 0; and between
probabilities 0.52 and 0.54 the (uncapped) fraction strictly increases. -/
theorem kelly_fraction_amended_witness :
    ((0 : ℚ) < 1 / 2 ∧ (3 / 10 : ℚ) ≤ 1 / 2 ∧ kelly_fraction (3 / 10) (1 / 2) = 0) ∧
    ((1 / 2 : ℚ) < 13 / 25 ∧ (13 / 25 : ℚ) < 27 / 50 ∧
      KELLY_FRACTION * ((13 / 25 - 1 / 2) / (1 - 1 / 2)) < MAX_POSITION_PCT_PER_CITY ∧
      kelly_fraction (13 / 25) (1 / 2) < kelly_fraction (27 / 50) (1 / 2)) := by
  refine ⟨⟨by norm_num, by norm_num, ?_⟩, ⟨by norm_num, by norm_num, ?_, ?_⟩⟩
  · exact kelly_fraction_amended.1 (3 / 10) (1 / 2) (by norm_num) (by norm_num)
  · norm_num [KELLY_FRACTION, MAX_POSITION_PCT_PER_CITY]
  · exact kelly_fraction_amended.2 (1 / 2) (13 / 25) (27 / 50) (by norm_num)
      (by norm_num) (by norm_num) (by norm_num)
      (by norm_num [KELLY_FRACTION, MAX_POSITION_PCT_PER_CITY])

/-- C6 counterexample: with a negative dollar budget (-1), the code clamps
the dollar risk to 0, and the claimed chain `dollar_risk <= max_dollar_budget`
fails: 0 is not at most -1. -/
theorem compute_contract_count_budget_cex :
    compute_contract_count 1 1 (1 / 2) (-1) = (0, 0) ∧
    clamped_dollar_risk 1 1 (-1) = 0 ∧
    ¬(clamped_dollar_risk 1 1 (-1) ≤ -1) := by
  refine ⟨?_, ?_, ?_⟩ <;>
    norm_num [compute_contract_count, clamped_dollar_risk]

/-- C6 as amended: for a positive ask, nonnegative balance, and nonnegative
dollar budget, `actual_risk <= dollar_risk <= max_dollar_budget` with
`dollar_risk = max (min (kelly_frac * balance) budget) 0`, and the contract
count is exactly `floor (dollar_risk / ask)`. -/
theorem compute_contract_count_amended (kf bal ask maxr : ℚ)
    (hask : 0 < ask) (hbal : 0 ≤ bal) (hmax : 0 ≤ maxr) :
    (compute_contract_count kf bal ask maxr).2 ≤ clamped_dollar_risk kf bal maxr ∧
    clamped_dollar_risk kf bal maxr ≤ maxr ∧
    (compute_contract_count kf bal ask maxr).1 = ⌊clamped_dollar_risk kf bal maxr / ask⌋ := by
  have hd0 : 0 ≤ clamped_dollar_risk kf bal maxr := le_max_right _ 0
  have hdmax : clamped_dollar_risk kf bal maxr ≤ maxr :=
    max_le (min_le_right _ _) hmax
  unfold compute_contract_count
  by_cases hc : ask ≤ 0 ∨ kf ≤ 0
  · rw [if_pos hc]
    rcases hc with h | h
    · exact absurd h (not_le.mpr hask)
    · have hkb : kf * bal ≤ 0 := mul_nonpos_iff.mpr (Or.inr ⟨h, hbal⟩)
      have hdz : clamped_dollar_risk kf bal maxr = 0 := by
        unfold clamped_dollar_risk
        rw [min_eq_left (by linarith), max_eq_right hkb]
      rw [hdz]
      refine ⟨le_refl 0, hmax, ?_⟩
      rw [zero_div, Int.floor_zero]
  · rw [if_neg hc]
    dsimp only
    refine ⟨?_, hdmax, rfl⟩
    have hfl : (↑⌊clamped_dollar_risk kf bal maxr / ask⌋ : ℚ) ≤
        clamped_dollar_risk kf bal maxr / ask := Int.floor_le _
    calc (↑⌊clamped_dollar_risk kf bal maxr / ask⌋ : ℚ) * ask
        ≤ clamped_dollar_risk kf bal maxr / ask * ask :=
          mul_le_mul_of_nonneg_right hfl hask.le
      _ = clamped_dollar_risk kf bal maxr := div_mul_cancel₀ _ hask.ne'

/-- Witness for C6, the worked example of the spec: Kelly fraction 0.03,
balance 1000, ask 0.25, budget 30 dollars gives 120 contracts risking
exactly 30 dollars. -/
theorem compute_contract_count_amended_witness :
    ((0 : ℚ) < 1 / 4 ∧ (0 : ℚ) ≤ 1000 ∧ (0 : ℚ) ≤ 30) ∧
    compute_contract_count (3 / 100) 1000 (1 / 4) 30 = (120, 30) ∧
    (compute_contract_count (3 / 100) 1000 (1 / 4) 30).2 ≤
      clamped_dollar_risk (3 / 100) 1000 30 ∧
    clamped_dollar_risk (3 / 100) 1000 30 ≤ 30 := by
  have hmain := compute_contract_count_amended (3 / 100) 1000 (1 / 4) 30
    (by norm_num) (by norm_num) (by norm_num)
  refine ⟨⟨by norm_num, by norm_num, by norm_num⟩, ?_, hmain.1, hmain.2.1⟩
  norm_num [compute_contract_count, clamped_dollar_risk]

/-! ## Claim theorems: bracket detector -/

/-- C2 (failing input): on three consecutive bounded bins around the mean
62.5, both adjacent pairs pass every gate and `find_bracket_opportunities`
returns two brackets, although its own doc string (and the spec) promise at
most one. -/
theorem find_bracket_returns_two_candidates :
    (find_bracket_opportunities (125 / 2) c2Opps "LA").length = 2 := by
  norm_num [find_bracket_opportunities, c2Opps, mkBoundedOpp, bracketCandidate,
    sortByKey, insertByKey, MIN_EDGE_THRESHOLD, BRACKET_MIN_EDGE,
    List.filter, List.zip, List.zipWith, List.filterMap]

/-! ## Helper lemmas: list statistics -/

/-- The mean of a constant list is that constant. -/
theorem listMean_replicate (n : ℕ) (a : ℝ) (hn : n ≠ 0) :
    listMean (List.replicate n a) = a := by
  have hcast : (n : ℝ) ≠ 0 := Nat.cast_ne_zero.mpr hn
  simp only [listMean, List.sum_replicate, List.length_replicate, nsmul_eq_mul]
  field_simp

/-- The population standard deviation of a constant list is 0. -/
theorem listStd_replicate (n : ℕ) (a : ℝ) (hn : n ≠ 0) :
    listStd (List.replicate n a) = 0 := by
  unfold listStd
  rw [listMean_replicate n a hn]
  have hmap : (List.replicate n a).map (fun x => (x - a) ^ 2) =
      List.replicate n 0 := by
    simp [List.map_replicate]
  rw [hmap, listMean_replicate n 0 hn, Real.sqrt_zero]

/-! ## Claim theorems: calibration updater -/

/-- C7 counterexample: on seven records whose reported sigma is -1 the code
returns scale 1 (its positive-mean guard fails), while the claim's clamped
`stdev / mean` formula evaluates to 0.5. -/
theorem calibration_scale_formula_cex :
    (compute_bias_correction calRecordsDegenerate).2 = 1 ∧
    max (1 / 2) (min (listStd (calRecordsDegenerate.map (fun r => r.2.2 - r.1)) /
      listMean (calRecordsDegenerate.map (fun r => r.2.1))) (5 / 2)) = 1 / 2 ∧
    (1 : ℝ) ≠ 1 / 2 := by
  have hσ : calRecordsDegenerate.map (fun r => r.2.1) = List.replicate 7 (-1 : ℝ) := by
    simp [calRecordsDegenerate]
  have hm : listMean (calRecordsDegenerate.map (fun r => r.2.1)) = -1 := by
    rw [hσ, listMean_replicate 7 (-1) (by norm_num)]
  have herr : calRecordsDegenerate.map (fun r => r.2.2 - r.1) =
      List.replicate 7 (0 : ℝ) := by
    simp [calRecordsDegenerate]
  have hstd : listStd (calRecordsDegenerate.map (fun r => r.2.2 - r.1)) = 0 := by
    rw [herr, listStd_replicate 7 0 (by norm_num)]
  refine ⟨?_, ?_, by norm_num⟩
  · unfold compute_bias_correction
    rw [if_neg (by simp [calRecordsDegenerate, MIN_RECORDS_FOR_CALIBRATION])]
    dsimp only
    rw [if_neg (by rw [hm]; norm_num)]
  · rw [hstd, hm]
    norm_num

/-- C7 as amended: below 7 records the neutral `(0, 1)` is returned; with at
least 7 records and a positive mean reported sigma the result is exactly
`(mean error, clamp (stdev error / mean sigma))`; and in every case
(including a nonpositive mean sigma, where the code keeps scale 1) the
returned scale lies in `[0.5, 2.5]`. -/
theorem compute_bias_correction_amended (records : List (ℝ × ℝ × ℝ)) :
    (records.length < MIN_RECORDS_FOR_CALIBRATION →
      compute_bias_correction records = (0, 1)) ∧
    (MIN_RECORDS_FOR_CALIBRATION ≤ records.length →
      0 < listMean (records.map (fun r => r.2.1)) →
      compute_bias_correction records =
        (listMean (records.map (fun r => r.2.2 - r.1)),
         max (1 / 2) (min (listStd (records.map (fun r => r.2.2 - r.1)) /
           listMean (records.map (fun r => r.2.1))) (5 / 2)))) ∧
    (1 / 2 ≤ (compute_bias_correction records).2 ∧
      (compute_bias_correction records).2 ≤ 5 / 2) := by
  refine ⟨?_, ?_, ?_⟩
  · intro h
    unfold compute_bias_correction
    rw [if_pos h]
  · intro hlen hσ
    unfold compute_bias_correction
    rw [if_neg (not_lt.mpr hlen)]
    dsimp only
    rw [if_pos hσ]
  · unfold compute_bias_correction
    split_ifs with h1
    · norm_num
    · dsimp only
      split_ifs with h2
      · exact ⟨le_max_left _ _, max_le (by norm_num) (min_le_right _ _)⟩
      · norm_num

/-- Witness for C7: seven records `(mu 0, sigma 1, actual 2)` give bias 2
(the constant error) and scale 0.5 (zero error spread clamped up to the
floor), inside `[0.5, 2.5]`. -/
theorem compute_bias_correction_amended_witness :
    MIN_RECORDS_FOR_CALIBRATION ≤ calRecordsGood.length ∧
    0 < listMean (calRecordsGood.map (fun r => r.2.1)) ∧
    compute_bias_correction calRecordsGood = (2, 1 / 2) ∧
    1 / 2 ≤ (compute_bias_correction calRecordsGood).2 := by
  have hσmap : calRecordsGood.map (fun r => r.2.1) = List.replicate 7 (1 : ℝ) := by
    simp [calRecordsGood]
  have hσ : listMean (calRecordsGood.map (fun r => r.2.1)) = 1 := by
    rw [hσmap, listMean_replicate 7 1 (by norm_num)]
  have herr : calRecordsGood.map (fun r => r.2.2 - r.1) =
      List.replicate 7 (2 : ℝ) := by
    simp [calRecordsGood]
  have hlen : MIN_RECORDS_FOR_CALIBRATION ≤ calRecordsGood.length := by
    simp [calRecordsGood, MIN_RECORDS_FOR_CALIBRATION]
  have hpos : 0 < listMean (calRecordsGood.map (fun r => r.2.1)) := by
    rw [hσ]; norm_num
  have hmain := compute_bias_correction_amended calRecordsGood
  have heq := hmain.2.1 hlen hpos
  refine ⟨hlen, hpos, ?_, hmain.2.2.1⟩
  rw [heq, herr, hσ, listMean_replicate 7 2 (by norm_num),
    listStd_replicate 7 2 (by norm_num)]
  norm_num

/-! ## Helper lemmas: the standard normal CDF -/

theorem stdNormalPdf_pos (t : ℝ) : 0 < stdNormalPdf t := by
  unfold stdNormalPdf
  exact div_pos (Real.exp_pos _) (Real.sqrt_pos.mpr (by positivity))

theorem stdNormalPdf_fun_eq :
    stdNormalPdf = fun t : ℝ => Real.exp (-(1 / 2) * t ^ 2) / Real.sqrt (2 * Real.pi) := by
  funext t
  unfold stdNormalPdf
  rw [show -(t ^ 2) / 2 = -(1 / 2) * t ^ 2 by ring]

theorem integrable_stdNormalPdf : MeasureTheory.Integrable stdNormalPdf := by
  rw [stdNormalPdf_fun_eq]
  exact (integrable_exp_neg_mul_sq (by norm_num : (0 : ℝ) < 1 / 2)).div_const _

theorem stdNormalCdf_sub_eq (a b : ℝ) :
    stdNormalCdf b - stdNormalCdf a = ∫ t in a..b, stdNormalPdf t := by
  unfold stdNormalCdf
  exact intervalIntegral.integral_Iic_sub_Iic
    integrable_stdNormalPdf.integrableOn integrable_stdNormalPdf.integrableOn

theorem stdNormalCdf_mono : Monotone stdNormalCdf := by
  intro a b hab
  have key := stdNormalCdf_sub_eq a b
  have h0 : 0 ≤ ∫ t in a..b, stdNormalPdf t :=
    intervalIntegral.integral_nonneg hab (fun x _ => (stdNormalPdf_pos x).le)
  linarith

theorem stdNormalCdf_nonneg (x : ℝ) : 0 ≤ stdNormalCdf x :=
  MeasureTheory.setIntegral_nonneg measurableSet_Iic (fun t _ => (stdNormalPdf_pos t).le)

theorem integral_stdNormalPdf : ∫ t, stdNormalPdf t = 1 := by
  rw [stdNormalPdf_fun_eq]
  rw [MeasureTheory.integral_div, integral_gaussian,
    show Real.pi / (1 / 2) = 2 * Real.pi by ring]
  exact div_self (ne_of_gt (Real.sqrt_pos.mpr (by positivity)))

theorem stdNormalCdf_le_one (x : ℝ) : stdNormalCdf x ≤ 1 := by
  have h : stdNormalCdf x ≤ ∫ t, stdNormalPdf t :=
    MeasureTheory.setIntegral_le_integral integrable_stdNormalPdf
      (MeasureTheory.ae_of_all _ fun t => (stdNormalPdf_pos t).le)
  rwa [integral_stdNormalPdf] at h

/-! ## Claim theorems: bin probability model -/

/-- C1 counterexample: a representable but inconsistent bounded bin with
`temp_low = 10 > temp_high = 0` (mean 0, sigma 1) makes `bin_probability`
with the genuine standard normal CDF return the negative value
`phi(0) - phi(10)`, outside `[0, 1]`. -/
theorem bin_probability_out_of_range_cex :
    bin_probability stdNormalCdf 0 1 (some 10) (some 0) false false < 0 := by
  have hlt : stdNormalCdf 0 < stdNormalCdf 10 := by
    have key := stdNormalCdf_sub_eq 0 10
    have hpos : 0 < ∫ t in (0 : ℝ)..10, stdNormalPdf t :=
      intervalIntegral.intervalIntegral_pos_of_pos
        integrable_stdNormalPdf.intervalIntegrable stdNormalPdf_pos (by norm_num)
    linarith
  have hred : bin_probability stdNormalCdf 0 1 (some 10) (some 0) false false =
      stdNormalCdf ((0 - 0) / 1) - stdNormalCdf ((10 - 0) / 1) := rfl
  rw [hred, show ((0 : ℝ) - 0) / 1 = 0 by norm_num,
    show ((10 : ℝ) - 0) / 1 = 10 by norm_num]
  linarith

/-- C1 as amended: for every CDF-shaped `phi` (monotone with values in
`[0, 1]`), every mean, every sigma > 0 and every bin shape whose bounds are
consistent (`temp_low <= temp_high` whenever both are present),
`bin_probability` lies in `[0, 1]`.  The standard normal CDF satisfies the
`phi` hypotheses (`stdNormalCdf_mono`, `stdNormalCdf_nonneg`,
`stdNormalCdf_le_one`). -/
theorem bin_probability_amended (phi : ℝ → ℝ) (mu sigma : ℝ)
    (temp_low temp_high : Option ℝ) (iol ioh : Bool)
    (hmono : Monotone phi) (hphi0 : ∀ x, 0 ≤ phi x) (hphi1 : ∀ x, phi x ≤ 1)
    (hs : 0 < sigma)
    (hlh : ∀ l h, temp_low = some l → temp_high = some h → l ≤ h) :
    bin_probability phi mu sigma temp_low temp_high iol ioh ∈ Set.Icc (0 : ℝ) 1 := by
  rcases temp_low with _ | l <;> rcases temp_high with _ | h <;>
    cases iol <;> cases ioh <;>
    simp only [bin_probability, Set.mem_Icc]
  all_goals try exact ⟨le_refl 0, by norm_num⟩
  all_goals try exact ⟨hphi0 _, hphi1 _⟩
  all_goals try exact ⟨by linarith [hphi1 ((l - mu) / sigma)],
    by linarith [hphi0 ((l - mu) / sigma)]⟩
  -- remaining: the bounded branch, both bounds present, both flags false
  have hlh2 : l ≤ h := hlh l h rfl rfl
  have hdiv : (l - mu) / sigma ≤ (h - mu) / sigma :=
    div_le_div_of_nonneg_right (by linarith) hs.le
  exact ⟨sub_nonneg.mpr (hmono hdiv),
    by linarith [hphi1 ((h - mu) / sigma), hphi0 ((l - mu) / sigma)]⟩

/-- Witness for C1: the standard normal CDF is monotone with range in
`[0, 1]`, and the probability of the consistent bounded bin `[60, 61]`
under mean 0, sigma 1 lies in `[0, 1]`. -/
theorem bin_probability_amended_witness :
    Monotone stdNormalCdf ∧ (0 : ℝ) < 1 ∧
    bin_probability stdNormalCdf 0 1 (some 60) (some 61) false false ∈
      Set.Icc (0 : ℝ) 1 := by
  refine ⟨stdNormalCdf_mono, by norm_num, ?_⟩
  refine bin_probability_amended stdNormalCdf 0 1 (some 60) (some 61) false false
    stdNormalCdf_mono (fun x => stdNormalCdf_nonneg x) (fun x => stdNormalCdf_le_one x)
    (by norm_num) ?_
  intro l h hl hh
  injection hl with hl1
  injection hh with hh1
  rw [← hl1, ← hh1]
  norm_num

/-! ## Claim theorems: edge evaluator -/

/-- C4 (failing input): a market whose orderbook has ask = bid = 0.50 - a
spread of exactly 0, within `MAX_SPREAD_TO_TRADE` - passes the ask gates but
is rejected by `evaluate_market` for any CDF, because Python's
`ob.spread() or 1.0` treats the falsy float 0.0 as missing and substitutes
1.0, which fails the spread gate. -/
theorem zero_spread_market_rejected :
    (∀ phi : ℝ → ℝ, evaluate_market phi c4Market (121 / 2) 1 (some c4Ob) "LA" = none) ∧
    orderbook_spread c4Ob = some 0 ∧
    ((0 : ℝ) ≤ ((MAX_SPREAD_TO_TRADE : ℚ) : ℝ)) := by
  refine ⟨?_, ?_, by norm_num [MAX_SPREAD_TO_TRADE]⟩
  · intro phi
    norm_num [evaluate_market, c4Market, c4Ob, best_ask, best_bid, orderbook_spread,
      pyOrFloat, List.foldl, MIN_ASK_TO_TRADE, MAX_ASK_TO_TRADE, MAX_SPREAD_TO_TRADE]
  · norm_num [orderbook_spread, best_ask, best_bid, c4Ob, List.foldl]

/-- C8: whenever `evaluate_market` accepts a bin, the produced opportunity
satisfies `raw_edge = model_prob - ask`, `fee_cost = FEE_RATE / ask`,
`net_edge = raw_edge - fee_cost`, `ev_per_dollar = net_edge / ask`, and
`has_edge` holds exactly when `net_edge >= MIN_EDGE_THRESHOLD` (so equality
at the threshold counts as an edge). -/
theorem evaluate_market_edge_formulas (phi : ℝ → ℝ) (market : KalshiMarket ℝ)
    (dist_mu dist_sigma : ℝ) (ob : Option (KalshiOrderbook ℝ)) (city : String)
    (o : TradeOpportunity ℝ)
    (h : evaluate_market phi market dist_mu dist_sigma ob city = some o) :
    o.raw_edge = o.model_prob - o.ask_price ∧
    o.fee_cost = ((KALSHI_FEE_RATE : ℚ) : ℝ) / o.ask_price ∧
    o.net_edge = o.raw_edge - o.fee_cost ∧
    o.ev_per_dollar = o.net_edge / o.ask_price ∧
    (o.has_edge = true ↔ ((MIN_EDGE_THRESHOLD : ℚ) : ℝ) ≤ o.net_edge) := by
  rcases ob with _ | ob0
  · exact absurd h (by simp [evaluate_market])
  · unfold evaluate_market at h
    dsimp only at h
    rcases hba : best_ask ob0 with _ | ask
    · rw [hba] at h
      simp at h
    · rw [hba] at h
      dsimp only at h
      split_ifs at h with h1 h2 h3 h4 h5 h6 h7 h8
      all_goals have hask : 0 < ask := by push_neg at h1; linarith [h1.1]
      all_goals rw [Option.some.injEq] at h
      all_goals subst h
      all_goals try exact absurd hask ‹¬0 < ask›
      refine ⟨rfl, ?_, rfl, rfl, ?_⟩
      · show (compute_edge (bin_probability phi dist_mu dist_sigma market.temp_low
            market.temp_high market.is_open_low market.is_open_high) ask).2.1 =
          ((KALSHI_FEE_RATE : ℚ) : ℝ) / ask
        unfold compute_edge
        dsimp only
        rw [if_pos hask]
      · constructor
        · exact of_decide_eq_true
        · exact fun hh => decide_eq_true hh

/-- Witness for C8: with the identity in place of the CDF, the bounded bin
`[60, 61]` (mean 60.5, sigma 1, ask 0.50, bid 0.45, volume 10) is accepted
with model probability 1, raw edge 0.50, fee 0.02, net edge 0.48,
`has_edge` true and EV per dollar 0.96. -/
theorem evaluate_market_edge_formulas_witness :
    evaluate_market id c8Market (121 / 2) 1 (some c8Ob) "LA" = some c8Opp ∧
    c8Opp.raw_edge = c8Opp.model_prob - c8Opp.ask_price ∧
    (c8Opp.has_edge = true ↔ ((MIN_EDGE_THRESHOLD : ℚ) : ℝ) ≤ c8Opp.net_edge) := by
  have heval : evaluate_market id c8Market (121 / 2) 1 (some c8Ob) "LA" = some c8Opp := by
    norm_num [evaluate_market, c8Market, c8Ob, c8Opp, best_ask, best_bid,
      orderbook_spread, pyOrFloat, bin_probability, compute_edge, List.foldl,
      MIN_ASK_TO_TRADE, MAX_ASK_TO_TRADE, MAX_SPREAD_TO_TRADE,
      MIN_VOLUME_TO_TRADE, MIN_EDGE_THRESHOLD, KALSHI_FEE_RATE]
    intro h60
    simp at h60
  have hmain := evaluate_market_edge_formulas id c8Market (121 / 2) 1
    (some c8Ob) "LA" c8Opp heval
  exact ⟨heval, hmain.1, hmain.2.2.2.2⟩

end KalshiEdge
